import Mathlib

/-!
Verification of the server-manager deployment orchestrator.

Shallow embedding of the core of the server-manager service: the token
store and auth middleware, the deployment registry and instance
provisioner, the build pipeline, the rollback manager and the image
retention policy.  External effects (docker, git, the clock, randomness,
the SHA-256 hash) are passed in explicitly as oracle parameters, and the
durable documents (deployments, build history, tokens) are threaded as
explicit state.  Timestamps are modelled as epoch milliseconds.
-/

namespace ServerManager

/-! ## Token store (tokens.json) -/

/-- One persisted token record.  The raw token is never stored; only its
one-way hash. -/
structure TokenRecord where
  id : String
  token_hash : String
  label : String
  role : String
  created_at : String
  last_used_at : Option String
  deriving DecidableEq

/-- The persisted token document (`tokens.json`). -/
structure TokenStore where
  tokens : List TokenRecord
  deriving DecidableEq

/-- Update the first element of a list satisfying a predicate, mirroring
a JavaScript `find` followed by in-place mutation of the found object. -/
def updateFirst (l : List TokenRecord) (p : TokenRecord → Bool) (f : TokenRecord → TokenRecord) :
    List TokenRecord :=
  match l with
  | [] => []
  | t :: rest => if p t then f t :: rest else t :: updateFirst rest p f

/-- `verifyToken` from the source: hash the presented bearer credential,
look up a matching record, and on a hit stamp `last_used_at`.  The hash
function (SHA-256 in the source) is an explicit parameter.  An absent or
empty credential is rejected up front (the JavaScript falsy check). -/
def verifyToken (hash : String → String) (bearer : Option String) (store : TokenStore)
    (now : String) : Option TokenRecord × TokenStore :=
  match bearer with
  | none => (none, store)
  | some b =>
    if b = "" then (none, store)
    else
      match store.tokens.find? (fun t => t.token_hash == hash b) with
      | none => (none, store)
      | some e =>
        (some { e with last_used_at := some now },
         ⟨updateFirst store.tokens (fun t => t.token_hash == hash b)
            (fun t => { t with last_used_at := some now })⟩)

/-- `startsWith` on strings via their character lists. -/
def strStartsWith (s p : String) : Bool := p.toList.isPrefixOf s.toList

/-- `drop` on strings via their character lists. -/
def strDrop (s : String) (n : Nat) : String := String.mk (s.toList.drop n)

/-- Outcome of the auth middleware: either the request proceeds (with the
authenticated record attached, or none in open mode), or it is rejected. -/
inductive AuthOutcome where
  | next (entry : Option TokenRecord)
  | unauthorized (msg : String)
  deriving DecidableEq

/-- `authMiddleware` from the source.  `envToken` is the bootstrap
credential (`MCP_BEARER_TOKEN`); when it is unset (or empty, which is
falsy in JavaScript) the middleware admits every request unchecked. -/
def authMiddleware (hash : String → String) (envToken : Option String)
    (authHeader : Option String) (store : TokenStore) (now : String) :
    AuthOutcome × TokenStore :=
  if envToken.getD "" = "" then (AuthOutcome.next none, store)
  else
    match authHeader with
    | none => (AuthOutcome.unauthorized "Unauthorized — Bearer token required", store)
    | some auth =>
      if strStartsWith auth "Bearer " = false then
        (AuthOutcome.unauthorized "Unauthorized — Bearer token required", store)
      else
        match verifyToken hash (some (strDrop auth 7)) store now with
        | (none, st) => (AuthOutcome.unauthorized "Unauthorized — invalid token", st)
        | (some e, st) => (AuthOutcome.next (some e), st)

/-- Result of the token-deletion route. -/
structure TokenDeleteOut where
  status : Nat
  store : TokenStore
  deriving DecidableEq

/-- `findIndex` on the token list, mirroring the JavaScript semantics
(index of the first record with the given id, or none). -/
def findTokenIdx (l : List TokenRecord) (id : String) : Option Nat :=
  match l with
  | [] => none
  | t :: rest => if t.id = id then some 0 else (findTokenIdx rest id).map (· + 1)

/-- The `DELETE /api/tokens/:id` route body: 404 when the id is unknown,
refusal (400) when only one token remains, otherwise splice the record
out and save. -/
def deleteTokenRoute (store : TokenStore) (id : String) : TokenDeleteOut :=
  match findTokenIdx store.tokens id with
  | none => ⟨404, store⟩
  | some idx =>
    if store.tokens.length = 1 then ⟨400, store⟩
    else ⟨200, ⟨store.tokens.eraseIdx idx⟩⟩

/-- Result of the token-creation route. -/
structure TokenCreateOut where
  status : Nat
  store : TokenStore
  rawTokenReturned : Option String
  deriving DecidableEq

/-- The `POST /api/tokens` route body: validate label and role, push a
new record holding only the hash, and return the raw token once. -/
def createTokenRoute (store : TokenStore) (label role : String) (hash : String → String)
    (rawToken tokId now : String) : TokenCreateOut :=
  if label = "" then ⟨400, store, none⟩
  else if ¬(role = "admin" ∨ role = "deployer" ∨ role = "viewer") then ⟨400, store, none⟩
  else
    ⟨201,
     ⟨store.tokens ++ [{ id := tokId, token_hash := hash rawToken, label := label,
                         role := role, created_at := now, last_used_at := none }]⟩,
     some rawToken⟩

/-! ## Deployment store (deployments.json) and instance provisioner -/

/-- The fixed domain suffix compiled into the source. -/
def DOMAIN_SUFFIX : String := "dev.codematrx.com"

/-- One instance record of the deployment registry. -/
structure InstanceRecord where
  display_name : String
  subdomain : String
  url : String
  api_key : String
  db_password : String
  postgres_image : String
  created_at : String
  status : String
  deriving DecidableEq

/-- Fleet-wide defaults of the deployment registry. -/
structure Defaults where
  image : String
  source : String
  domain_suffix : String
  postgres_image : String
  deriving DecidableEq

/-- The deployment registry document: defaults plus a name-keyed mapping
of instance records (association list in JavaScript object insertion
order). -/
structure DeploymentConfig where
  defaults : Defaults
  instances : List (String × InstanceRecord)
  deriving DecidableEq

/-- Registry lookup by instance name. -/
def lookupInst (cfg : DeploymentConfig) (n : String) : Option InstanceRecord :=
  (cfg.instances.find? (fun p => p.1 == n)).map (·.2)

/-- JavaScript `a || b` on strings: `b` when `a` is empty (falsy). -/
def jsOr (a b : String) : String := if a = "" then b else a

/-- A file rendered by the provisioner, identified by its inputs rather
than its literal template text. -/
inductive RenderedFile where
  | compose (name pgImage : String)
  | envFile (name displayName dbPassword apiKey : String)
  deriving DecidableEq

/-- Write a rendered file at a path (overwrite or append). -/
def setFile (fs : List (String × RenderedFile)) (path : String) (content : RenderedFile) :
    List (String × RenderedFile) :=
  if fs.any (fun p => p.1 == path) then
    fs.map (fun p => if p.1 == path then (path, content) else p)
  else fs ++ [(path, content)]

/-- Environment oracles consumed by one `createInstance` call: the live
container-name collision check, the generated secrets, the outcome of
`docker compose up -d`, and the clock. -/
structure ProvisionEnv where
  containerNameTaken : Bool
  dbPassword : String
  genApiKey : String
  startOk : Bool
  nowIso : String
  deriving DecidableEq

/-- Result of `createInstance`: the response fields the claims consult
plus the resulting registry and rendered-file state. -/
structure CreateOut where
  error : Option String
  success : Option Bool
  cfg : DeploymentConfig
  files : List (String × RenderedFile)
  deriving DecidableEq

/-- `createInstance` from the source: conflict checks, secret generation,
file rendering, registration with status `created`, stack start, and
status promotion to `running` on a successful start. -/
def createInstance (name display_name : String) (api_key postgres_image : Option String)
    (cfg : DeploymentConfig) (files : List (String × RenderedFile)) (env : ProvisionEnv) :
    CreateOut :=
  if (lookupInst cfg name).isSome then
    { error := some ("Instance '" ++ name ++ "' already exists."), success := none,
      cfg := cfg, files := files }
  else if env.containerNameTaken then
    { error := some ("Container ship-" ++ name ++ " or db-" ++ name ++ " already exists."),
      success := none, cfg := cfg, files := files }
  else
    let finalApiKey := jsOr (api_key.getD "") ("sk_ship_" ++ env.genApiKey)
    let pgImage := jsOr (postgres_image.getD "") (jsOr cfg.defaults.postgres_image "postgres:17-alpine")
    let dir := "/srv/apps/" ++ name
    let files1 := setFile files (dir ++ "/docker-compose.yml") (.compose name pgImage)
    let files2 := setFile files1 (dir ++ "/.env")
      (.envFile name display_name env.dbPassword finalApiKey)
    let rec0 : InstanceRecord :=
      { display_name := display_name, subdomain := "ship-" ++ name,
        url := "https://ship-" ++ name ++ "." ++ DOMAIN_SUFFIX, api_key := finalApiKey,
        db_password := env.dbPassword, postgres_image := pgImage,
        created_at := env.nowIso, status := "created" }
    if env.startOk then
      { error := none, success := some true,
        cfg := { cfg with instances := cfg.instances ++ [(name, { rec0 with status := "running" })] },
        files := files2 }
    else
      { error := none, success := some false,
        cfg := { cfg with instances := cfg.instances ++ [(name, rec0)] },
        files := files2 }

/-- Lowercase-alphanumeric character class `[a-z0-9]` of the slug regex. -/
def isLowerAlnumChar (c : Char) : Bool :=
  (decide ('a' ≤ c) && decide (c ≤ 'z')) || (decide ('0' ≤ c) && decide (c ≤ '9'))

/-- Middle character class `[a-z0-9-]` of the slug regex. -/
def isSlugMidChar (c : Char) : Bool := isLowerAlnumChar c || c == '-'

/-- Characters after the first: a run of `[a-z0-9-]*` followed by a final
`[a-z0-9]`. -/
def slugTail : List Char → Bool
  | [] => false
  | [c] => isLowerAlnumChar c
  | c :: rest => isSlugMidChar c && slugTail rest

/-- The anchored slug regex `^[a-z0-9][a-z0-9-]*[a-z0-9]$` used by both
the REST route and the MCP tool schema. -/
def matchesSlug (s : String) : Bool :=
  match s.toList with
  | [] => false
  | c :: rest => isLowerAlnumChar c && slugTail rest

/-- Modelled from the spec: "instance names match
`^[a-z0-9][a-z0-9-]*[a-z0-9]$` (or a single character)" — the validity
predicate the specification describes, with the single-character
alternative. -/
def specNameValid (s : String) : Bool :=
  matchesSlug s ||
    (match s.toList with
     | [c] => isLowerAlnumChar c
     | _ => false)

/-- Result of the `POST /api/instances` route. -/
structure ApiCreateOut where
  status : Nat
  cfg : DeploymentConfig
  files : List (String × RenderedFile)
  deriving DecidableEq

/-- The `POST /api/instances` route body: required-field check, slug
validation, then `createInstance`, mapping an error result to 409 and a
non-error result to 201. -/
def apiInstancesPost (name display_name : String) (api_key postgres_image : Option String)
    (cfg : DeploymentConfig) (files : List (String × RenderedFile)) (env : ProvisionEnv) :
    ApiCreateOut :=
  if name = "" ∨ display_name = "" then ⟨400, cfg, files⟩
  else if matchesSlug name = false then ⟨400, cfg, files⟩
  else
    let r := createInstance name display_name api_key postgres_image cfg files env
    ⟨if r.error.isSome then 409 else 201, r.cfg, r.files⟩

/-- Result of `removeInstance`: the response fields plus the resulting
registry.  `teardownOk` is the reported `compose_down` result. -/
structure RemoveOut where
  error : Option String
  success : Bool
  cfg : DeploymentConfig
  teardownRan : Bool
  teardownOk : Bool
  deriving DecidableEq

/-- Environment oracles for one `removeInstance` call. -/
structure RemoveEnv where
  composeFileExists : Bool
  teardownOk : Bool
  rmDirOk : Bool
  deriving DecidableEq

/-- `removeInstance` from the source: unknown names fail and change
nothing; registered names are torn down best-effort and then always
deregistered with `success: true`, even when the teardown subprocess
failed. -/
def removeInstance (name : String) (delete_data : Bool) (cfg : DeploymentConfig)
    (env : RemoveEnv) : RemoveOut :=
  if (lookupInst cfg name).isSome = false then
    { error := some ("Instance '" ++ name ++ "' not found"), success := false,
      cfg := cfg, teardownRan := false, teardownOk := false }
  else
    let tOk := if env.composeFileExists then env.teardownOk else true
    { error := none, success := true,
      cfg := { cfg with instances := cfg.instances.filter (fun p => !(p.1 == name)) },
      teardownRan := true, teardownOk := tOk }

/-! ## Build history (build-history.json) and docker tag space -/

/-- One build or rollback event, immutable once appended.  Timestamps
are epoch milliseconds. -/
structure BuildRecord where
  id : String
  tag : String
  timestamp_ms : Int
  git_commit : String
  git_message : String
  image_id : Option String
  success : Bool
  error : Option String
  duration_ms : Int
  triggered_by : String
  instances_restarted : List String
  deriving DecidableEq

/-- The `matrx-ship` image tag namespace: an association of tags to
image ids. -/
def lookupTag (imgs : List (String × String)) (tag : String) : Option String :=
  (imgs.find? (fun p => p.1 == tag)).map (·.2)

/-- Point a tag at an image id (create or overwrite the reference). -/
def setTag (imgs : List (String × String)) (tag id : String) : List (String × String) :=
  (tag, id) :: imgs.filter (fun p => !(p.1 == tag))

/-- `docker tag src dst`, best-effort: a no-op when `src` does not
resolve, otherwise `dst` is pointed at `src`'s image. -/
def dockerTagCmd (imgs : List (String × String)) (src dst : String) :
    List (String × String) :=
  match lookupTag imgs src with
  | none => imgs
  | some id => setTag imgs dst id

/-- `"unknown"` fallback for a failed or empty git capture. -/
def orUnknown (s : String) : String := if s = "" then "unknown" else s

/-! ## Retention policy (`cleanupBuildImages`) -/

/-- One week of milliseconds, as in the source. -/
def ONE_WEEK : Int := 604800000

/-- Thirty days of milliseconds, the source's month constant. -/
def ONE_MONTH : Int := 2592000000

/-- The history filter of the retention policy: successful builds with a
nonempty tag that is not a rollback entry. -/
def successfulBuilds (builds : List BuildRecord) : List BuildRecord :=
  builds.filter (fun b => b.success && !(b.tag == "") && !(b.tag.startsWith "rollback"))

/-- Insertion into the keep set (JavaScript `Set.add`, preserving
insertion order). -/
def addTag (s : List String) (t : String) : List String :=
  if t ∈ s then s else s ++ [t]

/-- Conditional insertion for an optional window representative. -/
def addTagOpt (s : List String) : Option String → List String
  | some t => addTag s t
  | none => s

/-- The newest successful build falling in the `w`-th rolling 7-day
window before `now` (the source's weekly `find`). -/
def weekWindowRep (sb : List BuildRecord) (now : Int) (w : Nat) : Option BuildRecord :=
  sb.find? (fun b =>
    decide (now - ((w : Int) + 1) * ONE_WEEK ≤ b.timestamp_ms) &&
    decide (b.timestamp_ms < now - (w : Int) * ONE_WEEK))

/-- The newest successful build falling in the `m`-th rolling 30-day
window before `now` (the source's monthly `find`). -/
def monthWindowRep (sb : List BuildRecord) (now : Int) (m : Nat) : Option BuildRecord :=
  sb.find? (fun b =>
    decide (now - ((m : Int) + 1) * ONE_MONTH ≤ b.timestamp_ms) &&
    decide (b.timestamp_ms < now - (m : Int) * ONE_MONTH))

/-- The retention keep set, in insertion order: the three sentinel tags,
the tags of the three most recent successful non-rollback builds, one
representative per rolling 7-day window for four windows, and one per
rolling 30-day window for three windows. -/
def keepTags (builds : List BuildRecord) (now : Int) : List String :=
  (List.range 3).foldl
    (fun s m => addTagOpt s ((monthWindowRep (successfulBuilds builds) now m).map (·.tag)))
    ((List.range 4).foldl
      (fun s w => addTagOpt s ((weekWindowRep (successfulBuilds builds) now w).map (·.tag)))
      (((successfulBuilds builds).take 3).foldl (fun s b => addTag s b.tag)
        ["latest", "rollback", "pre-rollback"]))

/-- Result of one retention sweep.  `remainingTags` models the runtime
tag list after the removals took effect. -/
structure CleanupResult where
  kept : List String
  removed : List String
  total_tags_before : Nat
  total_tags_after : Nat
  remainingTags : List String
  deriving DecidableEq

/-- `cleanupBuildImages` from the source: compute the keep set from the
build history, enumerate the runtime's tags, and remove every tag
outside the keep set (skipping the `<none>` placeholder); each removal
is best-effort, governed by the `rmOk` oracle. -/
def cleanupBuildImages (builds : List BuildRecord) (now : Int) (allTags : List String)
    (rmOk : String → Bool) : CleanupResult :=
  let keep := keepTags builds now
  let removed := allTags.filter
    (fun t => !(t == "<none>") && !(decide (t ∈ keep)) && rmOk t)
  { kept := keep.filter (fun t => decide (t ∈ allTags))
    removed := removed
    total_tags_before := allTags.length
    total_tags_after := allTags.length - removed.length
    remainingTags := allTags.filter (fun t => !(decide (t ∈ removed))) }

/-! ## Build pipeline (`rebuildInstances`) -/

/-- Per-target restart outcome: skipped because the name is not in the
registry, or the compose recreate ran with the given result. -/
inductive RestartOutcome where
  | notFound
  | ran (ok : Bool)
  deriving DecidableEq

/-- Environment oracles consumed by one `rebuildInstances` call. -/
structure BuildEnv where
  buildOk : Bool
  buildErr : String
  newImageId : String
  composeOk : String → Bool
  rmOk : String → Bool
  gitCommit : String
  gitMsg : String
  buildId : String
  startMs : Int
  endMs : Int
  buildTag : String

/-- Result of one build-pipeline invocation, together with the resulting
registry, history and tag-space state. -/
structure RebuildOut where
  success : Bool
  failedStep : Option String
  error : Option String
  config : DeploymentConfig
  history : List BuildRecord
  images : List (String × String)
  restarts : List (String × RestartOutcome)
  build_tag : Option String
  image_id : Option String
  instances_restarted : Option (List String)

/-- `rebuildInstances` from the source: safety-net tagging, image build,
failed-build early return with a `success:false` record, per-target
restarts (skipping names absent from the registry), a `success:true`
record carrying the target list, and the best-effort retention sweep. -/
def rebuildInstances (cfg : DeploymentConfig) (hist : List BuildRecord)
    (imgs : List (String × String)) (name : Option String) (skip_build : Bool)
    (triggered_by : Option String) (env : BuildEnv) : RebuildOut :=
  let imgs1 := if skip_build then imgs else dockerTagCmd imgs "latest" "rollback"
  if skip_build = false ∧ env.buildOk = false then
    { success := false, failedStep := some "build", error := some env.buildErr,
      config := cfg,
      history :=
        { id := "bld_" ++ env.buildId, tag := env.buildTag, timestamp_ms := env.startMs,
          git_commit := orUnknown env.gitCommit, git_message := orUnknown env.gitMsg,
          image_id := none, success := false, error := some env.buildErr,
          duration_ms := env.endMs - env.startMs,
          triggered_by := triggered_by.getD "unknown",
          instances_restarted := [] } :: hist,
      images := imgs1, restarts := [], build_tag := none, image_id := none,
      instances_restarted := none }
  else
    let imgs2 := if skip_build then imgs1
      else setTag (setTag imgs1 "latest" env.newImageId) env.buildTag env.newImageId
    let imageId := if skip_build then none else lookupTag imgs2 "latest"
    let targets := match name with
      | some n => [n]
      | none => cfg.instances.map (·.1)
    let restarts := targets.map (fun t =>
      (t, match lookupInst cfg t with
          | none => RestartOutcome.notFound
          | some _ => RestartOutcome.ran (env.composeOk t)))
    if skip_build then
      { success := true, failedStep := none, error := none, config := cfg,
        history := hist, images := imgs2, restarts := restarts,
        build_tag := none, image_id := none, instances_restarted := some targets }
    else
      let newRec : BuildRecord :=
        { id := "bld_" ++ env.buildId, tag := env.buildTag, timestamp_ms := env.startMs,
          git_commit := orUnknown env.gitCommit, git_message := orUnknown env.gitMsg,
          image_id := imageId, success := true, error := none,
          duration_ms := env.endMs - env.startMs,
          triggered_by := triggered_by.getD "unknown",
          instances_restarted := targets }
      let hist2 := newRec :: hist
      let cres := cleanupBuildImages hist2 env.endMs (imgs2.map (·.1)) env.rmOk
      let imgs3 := imgs2.filter (fun p => !(decide (p.1 ∈ cres.removed)))
      { success := true, failedStep := none, error := none, config := cfg,
        history := hist2, images := imgs3, restarts := restarts,
        build_tag := some env.buildTag, image_id := imageId,
        instances_restarted := some targets }

/-! ## Rollback manager (`rollbackBuild`) -/

/-- Result of one rollback invocation. -/
structure RollbackOut where
  success : Bool
  error : Option String
  config : DeploymentConfig
  history : List BuildRecord
  images : List (String × String)
  restarts : List (String × Bool)
  instances_restarted : Option (List String)

/-- `rollbackBuild` from the source: resolve the requested tag (failing
with a not-found error otherwise), tag the current image as
`pre-rollback` best-effort, re-tag the target as `latest` reading the
tag space as it stands after the safety tagging, restart every
registered instance, and append a synthetic rollback record. -/
def rollbackBuild (tag : String) (cfg : DeploymentConfig) (hist : List BuildRecord)
    (imgs : List (String × String)) (composeOk : String → Bool) (bid : String)
    (nowMs : Int) : RollbackOut :=
  if tag = "" then
    { success := false, error := some "tag is required", config := cfg, history := hist,
      images := imgs, restarts := [], instances_restarted := none }
  else
    match lookupTag imgs tag with
    | none =>
      { success := false, error := some ("Image tag matrx-ship:" ++ tag ++ " not found"),
        config := cfg, history := hist, images := imgs, restarts := [],
        instances_restarted := none }
    | some imgId =>
      match lookupTag (dockerTagCmd imgs "latest" "pre-rollback") tag with
      | none =>
        { success := false, error := some "Failed to retag", config := cfg, history := hist,
          images := dockerTagCmd imgs "latest" "pre-rollback", restarts := [],
          instances_restarted := none }
      | some curId =>
        let imgs2 := setTag (dockerTagCmd imgs "latest" "pre-rollback") "latest" curId
        let targets := cfg.instances.map (·.1)
        let restarts := targets.map (fun t => (t, composeOk t))
        let newRec : BuildRecord :=
          { id := "bld_" ++ bid, tag := "rollback-to-" ++ tag, timestamp_ms := nowMs,
            git_commit := "rollback", git_message := "Rollback to image tag: " ++ tag,
            image_id := some imgId, success := true, error := none, duration_ms := 0,
            triggered_by := "rollback", instances_restarted := targets }
        { success := true, error := none, config := cfg, history := newRec :: hist,
          images := imgs2, restarts := restarts, instances_restarted := some targets }

/-! ## Calendar reading of the retention claim -/

/-- Modelled from the spec: the "calendar week" / "calendar month"
schedule of the retention policy.  Civil (proleptic Gregorian, UTC)
month index — `12 * year + month` — of an epoch-millisecond timestamp,
via the standard days-to-civil-date conversion. -/
def civilMonthIndex (ms : Int) : Int :=
  let z := ms.fdiv 86400000 + 719468
  let era := z.fdiv 146097
  let doe := z - era * 146097
  let yoe := (doe - doe.fdiv 1460 + doe.fdiv 36524 - doe.fdiv 146096).fdiv 365
  let y := yoe + era * 400
  let doy := doe - (365 * yoe + yoe.fdiv 4 - yoe.fdiv 100)
  let mp := (5 * doy + 2).fdiv 153
  let m := if mp < 10 then mp + 3 else mp - 9
  let y2 := if m ≤ 2 then y + 1 else y
  12 * y2 + m

/-- Modelled from the spec: the form the retention claim asserts for the
keep set.  Every kept tag must be a sentinel, one of the three most
recent successful non-rollback build tags, a weekly pick (a successful
build tag from the preceding four calendar weeks — bounded generously by
35 days so that every reading of "preceding four calendar weeks" is
covered), or a monthly pick (successful build tags, at most one per
calendar month). -/
def KeepSetPerClaim (builds : List BuildRecord) (now : Int) (K : List String) : Prop :=
  ∃ W M : List BuildRecord,
    (∀ b ∈ W, b ∈ successfulBuilds builds ∧ now - 35 * 86400000 ≤ b.timestamp_ms) ∧
    (∀ b ∈ M, b ∈ successfulBuilds builds) ∧
    M.Pairwise (fun b₁ b₂ => civilMonthIndex b₁.timestamp_ms ≠ civilMonthIndex b₂.timestamp_ms) ∧
    (∀ t ∈ K,
      t ∈ (["latest", "rollback", "pre-rollback"] : List String) ∨
      t ∈ ((successfulBuilds builds).take 3).map (·.tag) ∨
      t ∈ W.map (·.tag) ∨
      t ∈ M.map (·.tag))

/-! ## Helper lemmas on the tag space -/

theorem find?_filter_of_imp {α : Type} (p q : α → Bool) (h : ∀ a, p a = true → q a = true) :
    ∀ l : List α, (l.filter q).find? p = l.find? p := by
  intro l
  induction l with
  | nil => rfl
  | cons a l ih =>
    cases hq : q a with
    | true =>
      rw [List.filter_cons_of_pos hq, List.find?_cons, List.find?_cons]
      cases p a <;> simp [ih]
    | false =>
      have hp : p a = false := by
        cases hpa : p a
        · rfl
        · rw [h a hpa] at hq; exact Bool.noConfusion hq
      rw [List.filter_cons_of_neg (by simp [hq]), List.find?_cons, hp, ih]

theorem lookupTag_setTag_ne (imgs : List (String × String)) (tag id t : String)
    (h : t ≠ tag) : lookupTag (setTag imgs tag id) t = lookupTag imgs t := by
  unfold lookupTag setTag
  rw [List.find?_cons]
  have hhead : (((tag, id) : String × String).1 == t) = false := by
    simp only [beq_eq_false_iff_ne]
    exact fun he => h he.symm
  simp only [hhead]
  rw [find?_filter_of_imp (fun p => p.1 == t) (fun p => !(p.1 == tag))
    (fun a ha => by
      simp only [beq_iff_eq] at ha
      simp [ha, h]) imgs]

theorem lookupTag_dockerTagCmd_ne (imgs : List (String × String)) (src dst t : String)
    (h : t ≠ dst) : lookupTag (dockerTagCmd imgs src dst) t = lookupTag imgs t := by
  unfold dockerTagCmd
  cases lookupTag imgs src with
  | none => rfl
  | some id => exact lookupTag_setTag_ne imgs dst id t h

/-! ## Concrete sample state used by witnesses and counterexamples -/

/-- Sample fleet defaults. -/
def cDefaults : Defaults :=
  { image := "matrx-ship:latest", source := "/srv/projects/matrx-ship",
    domain_suffix := DOMAIN_SUFFIX, postgres_image := "postgres:17-alpine" }

/-- Sample registered instance. -/
def cAcme : InstanceRecord :=
  { display_name := "Acme Corp", subdomain := "ship-acme",
    url := "https://ship-acme." ++ DOMAIN_SUFFIX, api_key := "sk_ship_k1",
    db_password := "pw1", postgres_image := "postgres:17-alpine",
    created_at := "2026-01-01T00:00:00Z", status := "running" }

/-- Sample registry holding one instance. -/
def cCfg1 : DeploymentConfig := { defaults := cDefaults, instances := [("acme", cAcme)] }

/-- Sample empty registry. -/
def cCfg0 : DeploymentConfig := { defaults := cDefaults, instances := [] }

/-- Sample tag space. -/
def cImgs1 : List (String × String) := [("latest", "idA"), ("20260101-000000", "idB")]

/-- Sample build environment for a failing image build. -/
def cEnvFail : BuildEnv :=
  { buildOk := false, buildErr := "compile error", newImageId := "idNew",
    composeOk := fun _ => true, rmOk := fun _ => true, gitCommit := "abc1234",
    gitMsg := "msg", buildId := "aaaaaa", startMs := 1774958000000,
    endMs := 1774958400000, buildTag := "20260331-120000" }

/-- Sample build environment for a succeeding image build. -/
def cEnvOk : BuildEnv := { cEnvFail with buildOk := true, buildErr := "" }

/-! ## C1 — a failed image build touches nothing -/

/-- C1: a build-pipeline invocation without the skip-build flag whose
image build fails appends exactly one `success:false` BuildRecord
capturing the error, returns without restarting any instance, leaves
every InstanceRecord (in particular every status) unchanged, and leaves
the current (`latest`) image tag unaltered. -/
theorem failed_build_is_isolated (cfg : DeploymentConfig) (hist : List BuildRecord)
    (imgs : List (String × String)) (name : Option String) (trig : Option String)
    (env : BuildEnv) (h : env.buildOk = false) :
    (rebuildInstances cfg hist imgs name false trig env).success = false ∧
    (rebuildInstances cfg hist imgs name false trig env).config = cfg ∧
    (rebuildInstances cfg hist imgs name false trig env).restarts = [] ∧
    (∃ r, (rebuildInstances cfg hist imgs name false trig env).history = r :: hist ∧
      r.success = false ∧ r.error = some env.buildErr ∧ r.instances_restarted = []) ∧
    lookupTag (rebuildInstances cfg hist imgs name false trig env).images "latest" =
      lookupTag imgs "latest" := by
  unfold rebuildInstances
  simp only [h, and_true, if_pos rfl, eq_self_iff_true, true_and]
  refine ⟨rfl, rfl, rfl, ⟨_, rfl, rfl, rfl, rfl⟩, ?_⟩
  exact lookupTag_dockerTagCmd_ne imgs "latest" "rollback" "latest" (by decide)

/-- Witness for C1: the failed-build theorem applied at a concrete
state. -/
theorem failed_build_is_isolated_witness :
    (rebuildInstances cCfg1 [] cImgs1 none false none cEnvFail).success = false ∧
    (rebuildInstances cCfg1 [] cImgs1 none false none cEnvFail).config = cCfg1 :=
  ⟨(failed_build_is_isolated cCfg1 [] cImgs1 none none cEnvFail rfl).1,
   (failed_build_is_isolated cCfg1 [] cImgs1 none none cEnvFail rfl).2.1⟩

/-! ## C2 — rollback semantics -/

theorem lookupTag_setTag_self (imgs : List (String × String)) (tag id : String) :
    lookupTag (setTag imgs tag id) tag = some id := by
  unfold lookupTag setTag
  rw [List.find?_cons]
  simp

/-- Sample tag space holding a `pre-rollback` safety tag distinct from
the current image. -/
def cImgsPR : List (String × String) := [("latest", "idA"), ("pre-rollback", "idB")]

/-- C2 counterexample: requesting a rollback to the tag `pre-rollback`
resolves (to image `idB`), the operation reports success, and yet the
current tag still points at the old image `idA` — the safety-tagging
step overwrote the target before the retag, so the target was not
re-tagged as the current tag as the claim requires. -/
theorem rollback_pre_rollback_counterexample :
    lookupTag cImgsPR "pre-rollback" = some "idB" ∧
    (rollbackBuild "pre-rollback" cCfg1 [] cImgsPR (fun _ => true) "r1" 0).success = true ∧
    lookupTag (rollbackBuild "pre-rollback" cCfg1 [] cImgsPR (fun _ => true) "r1" 0).images
      "latest" = some "idA" ∧
    ("idA" : String) ≠ "idB" :=
  ⟨rfl, rfl, rfl, by decide⟩

/-- C2 (amended): for every rollback request with a nonempty tag: if the
tag does not resolve, the operation fails with the tag-not-found error
and changes no state; if it resolves and is not the `pre-rollback`
safety tag itself, the target is re-tagged as the current tag, every
registered instance is restarted fleet-wide, and one BuildRecord is
appended with tag `rollback-to-<tag>`, duration 0 and triggered_by
`rollback`; if the requested tag is `pre-rollback` itself, the
safety-tagging step first overwrites it with the current image, so the
rollback succeeds (restarts and record included) but leaves the current
tag unchanged. -/
theorem rollback_spec (tag : String) (cfg : DeploymentConfig) (hist : List BuildRecord)
    (imgs : List (String × String)) (composeOk : String → Bool) (bid : String)
    (nowMs : Int) (htag : tag ≠ "") :
    (lookupTag imgs tag = none →
      (rollbackBuild tag cfg hist imgs composeOk bid nowMs).success = false ∧
      (rollbackBuild tag cfg hist imgs composeOk bid nowMs).error =
        some ("Image tag matrx-ship:" ++ tag ++ " not found") ∧
      (rollbackBuild tag cfg hist imgs composeOk bid nowMs).config = cfg ∧
      (rollbackBuild tag cfg hist imgs composeOk bid nowMs).history = hist ∧
      (rollbackBuild tag cfg hist imgs composeOk bid nowMs).images = imgs ∧
      (rollbackBuild tag cfg hist imgs composeOk bid nowMs).restarts = []) ∧
    (∀ id, lookupTag imgs tag = some id → tag ≠ "pre-rollback" →
      (rollbackBuild tag cfg hist imgs composeOk bid nowMs).success = true ∧
      lookupTag (rollbackBuild tag cfg hist imgs composeOk bid nowMs).images "latest" =
        some id ∧
      (rollbackBuild tag cfg hist imgs composeOk bid nowMs).restarts.map (·.1) =
        cfg.instances.map (·.1) ∧
      (∃ r, (rollbackBuild tag cfg hist imgs composeOk bid nowMs).history = r :: hist ∧
        r.tag = "rollback-to-" ++ tag ∧ r.duration_ms = 0 ∧ r.triggered_by = "rollback" ∧
        r.success = true ∧ r.instances_restarted = cfg.instances.map (·.1))) ∧
    (∀ pid lid, tag = "pre-rollback" → lookupTag imgs tag = some pid →
      lookupTag imgs "latest" = some lid →
      (rollbackBuild tag cfg hist imgs composeOk bid nowMs).success = true ∧
      lookupTag (rollbackBuild tag cfg hist imgs composeOk bid nowMs).images "latest" =
        some lid ∧
      (∃ r, (rollbackBuild tag cfg hist imgs composeOk bid nowMs).history = r :: hist ∧
        r.tag = "rollback-to-" ++ tag ∧ r.instances_restarted = cfg.instances.map (·.1))) := by
  unfold rollbackBuild
  rw [if_neg htag]
  refine ⟨?_, ?_, ?_⟩
  · intro hnone
    rw [hnone]
    exact ⟨rfl, rfl, rfl, rfl, rfl, rfl⟩
  · intro id hsome hpr
    rw [hsome]
    have h1 : lookupTag (dockerTagCmd imgs "latest" "pre-rollback") tag = some id := by
      rw [lookupTag_dockerTagCmd_ne imgs "latest" "pre-rollback" tag hpr]; exact hsome
    rw [h1]
    refine ⟨rfl, ?_, ?_, ⟨_, rfl, rfl, rfl, rfl, rfl, rfl⟩⟩
    · exact lookupTag_setTag_self _ "latest" id
    · simp
  · intro pid lid hpr hsome hlat
    subst hpr
    rw [hsome]
    have h1 : dockerTagCmd imgs "latest" "pre-rollback" =
        setTag imgs "pre-rollback" lid := by
      unfold dockerTagCmd; rw [hlat]
    have h2 : lookupTag (dockerTagCmd imgs "latest" "pre-rollback") "pre-rollback" =
        some lid := by
      rw [h1]; exact lookupTag_setTag_self _ _ _
    rw [h2]
    exact ⟨rfl, lookupTag_setTag_self _ "latest" lid, ⟨_, rfl, rfl, rfl⟩⟩

/-- Witness for C2 (amended), covering both the unresolved-tag branch and
the resolved-tag branch at concrete states. -/
theorem rollback_spec_witness :
    ((rollbackBuild "zz" cCfg1 [] cImgs1 (fun _ => true) "r1" 0).success = false ∧
     (rollbackBuild "zz" cCfg1 [] cImgs1 (fun _ => true) "r1" 0).history = []) ∧
    ((rollbackBuild "20260101-000000" cCfg1 [] cImgs1 (fun _ => true) "r1" 0).success = true ∧
     lookupTag (rollbackBuild "20260101-000000" cCfg1 [] cImgs1 (fun _ => true) "r1" 0).images
       "latest" = some "idB") :=
  ⟨⟨((rollback_spec "zz" cCfg1 [] cImgs1 (fun _ => true) "r1" 0 (by decide)).1 rfl).1,
    ((rollback_spec "zz" cCfg1 [] cImgs1 (fun _ => true) "r1" 0 (by decide)).1 rfl).2.2.2.1⟩,
   ⟨(((rollback_spec "20260101-000000" cCfg1 [] cImgs1 (fun _ => true) "r1" 0 (by decide)).2.1
       "idB" rfl (by decide)).1),
    (((rollback_spec "20260101-000000" cCfg1 [] cImgs1 (fun _ => true) "r1" 0 (by decide)).2.1
       "idB" rfl (by decide)).2.1)⟩⟩

/-! ## C7 — duplicate provisioning conflicts and mutates nothing -/

/-- Sample provisioning environment. -/
def cProvEnv : ProvisionEnv :=
  { containerNameTaken := false, dbPassword := "pw2", genApiKey := "k2",
    startOk := true, nowIso := "2026-03-31T12:00:00Z" }

/-- Sample rendered files of the already-provisioned instance. -/
def cFiles1 : List (String × RenderedFile) :=
  [("/srv/apps/acme/docker-compose.yml", .compose "acme" "postgres:17-alpine"),
   ("/srv/apps/acme/.env", .envFile "acme" "Acme Corp" "pw1" "sk_ship_k1")]

/-- C7: for every valid slug name, provisioning through the API when the
name already has a registry entry fails with 409 (ConflictError) and
leaves the registry — hence the original record with its api_key,
db_password, status and timestamps — and every rendered file untouched. -/
theorem duplicate_provision_conflict (name display_name : String)
    (api_key postgres_image : Option String) (cfg : DeploymentConfig)
    (files : List (String × RenderedFile)) (env : ProvisionEnv)
    (hslug : matchesSlug name = true) (hdn : display_name ≠ "")
    (hreg : (lookupInst cfg name).isSome) :
    (apiInstancesPost name display_name api_key postgres_image cfg files env).status = 409 ∧
    (apiInstancesPost name display_name api_key postgres_image cfg files env).cfg = cfg ∧
    (apiInstancesPost name display_name api_key postgres_image cfg files env).files = files := by
  have hname : name ≠ "" := by
    intro he; rw [he] at hslug; exact Bool.noConfusion hslug
  unfold apiInstancesPost createInstance
  rw [if_neg (by push_neg; exact ⟨hname, hdn⟩), if_neg (by rw [hslug]; decide),
    if_pos hreg]
  exact ⟨rfl, rfl, rfl⟩

/-- Witness for C7: a second provisioning of `acme` against a registry
already holding it. -/
theorem duplicate_provision_conflict_witness :
    (apiInstancesPost "acme" "Acme Again" none none cCfg1 cFiles1 cProvEnv).status = 409 ∧
    (apiInstancesPost "acme" "Acme Again" none none cCfg1 cFiles1 cProvEnv).cfg = cCfg1 :=
  ⟨(duplicate_provision_conflict "acme" "Acme Again" none none cCfg1 cFiles1 cProvEnv
      (by decide) (by decide) (by decide)).1,
   (duplicate_provision_conflict "acme" "Acme Again" none none cCfg1 cFiles1 cProvEnv
      (by decide) (by decide) (by decide)).2.1⟩

/-! ## C8 — the accepted name language -/

/-- C8 counterexample: the specification's validity predicate accepts the
single-character name `a`, but the API route rejects it with 400 — the
anchored regex `^[a-z0-9][a-z0-9-]*[a-z0-9]$` requires at least two
characters and has no single-character alternative in the code. -/
theorem slug_single_char_counterexample :
    specNameValid "a" = true ∧
    apiInstancesPost "a" "Acme" none none cCfg0 [] cProvEnv = ⟨400, cCfg0, []⟩ :=
  ⟨by decide, rfl⟩

/-- C8 (amended): with the required display name present, provisioning
through the API accepts a tenant name exactly when it matches
`^[a-z0-9][a-z0-9-]*[a-z0-9]$` (two or more characters; no
single-character alternative); any other name — single characters
included — fails with 400 before any state mutation. -/
theorem api_create_slug_validation (name display_name : String)
    (api_key postgres_image : Option String) (cfg : DeploymentConfig)
    (files : List (String × RenderedFile)) (env : ProvisionEnv)
    (hdn : display_name ≠ "") :
    ((apiInstancesPost name display_name api_key postgres_image cfg files env).status ≠ 400 ↔
      matchesSlug name = true) ∧
    (matchesSlug name = false →
      apiInstancesPost name display_name api_key postgres_image cfg files env =
        ⟨400, cfg, files⟩) := by
  by_cases hname : name = ""
  · subst hname
    constructor
    · unfold apiInstancesPost
      rw [if_pos (Or.inl rfl)]
      simp [matchesSlug]
    · intro _
      unfold apiInstancesPost
      rw [if_pos (Or.inl rfl)]
  · constructor
    · unfold apiInstancesPost
      rw [if_neg (by push_neg; exact ⟨hname, hdn⟩)]
      cases hm : matchesSlug name with
      | true =>
        rw [if_neg (by decide)]
        refine ⟨fun _ => rfl, fun _ => ?_⟩
        dsimp only
        split <;> decide
      | false => simp
    · intro hm
      unfold apiInstancesPost
      rw [if_neg (by push_neg; exact ⟨hname, hdn⟩), if_pos hm]

/-- Witness for C8 (amended): the valid name `acme` passes validation and
the invalid name `-bad` is rejected with no state change. -/
theorem api_create_slug_validation_witness :
    ((apiInstancesPost "acme" "Acme" none none cCfg0 [] cProvEnv).status ≠ 400) ∧
    (apiInstancesPost "-bad" "Acme" none none cCfg0 [] cProvEnv = ⟨400, cCfg0, []⟩) :=
  ⟨(api_create_slug_validation "acme" "Acme" none none cCfg0 [] cProvEnv
      (by decide)).1.mpr (by decide),
   (api_create_slug_validation "-bad" "Acme" none none cCfg0 [] cProvEnv
      (by decide)).2 (by decide)⟩

/-! ## C10 — removal always deregisters -/

/-- C10: removing a name absent from the registry returns an error and
changes nothing; removing a registered name always deletes the registry
entry and reports `success: true`, even when the container-teardown
subprocess fails — deregistration is never rolled back on teardown
failure, so registry and runtime may desynchronize in the registry's
favor. -/
theorem remove_instance_spec (name : String) (delete_data : Bool)
    (cfg : DeploymentConfig) (env : RemoveEnv) :
    (lookupInst cfg name = none →
      (removeInstance name delete_data cfg env).success = false ∧
      (removeInstance name delete_data cfg env).error =
        some ("Instance '" ++ name ++ "' not found") ∧
      (removeInstance name delete_data cfg env).cfg = cfg) ∧
    ((lookupInst cfg name).isSome →
      (removeInstance name delete_data cfg env).success = true ∧
      (removeInstance name delete_data cfg env).error = none ∧
      lookupInst (removeInstance name delete_data cfg env).cfg name = none) := by
  constructor
  · intro hnone
    unfold removeInstance
    rw [if_pos (by rw [hnone]; rfl)]
    exact ⟨rfl, rfl, rfl⟩
  · intro hsome
    unfold removeInstance
    have hneg : ¬ (lookupInst cfg name).isSome = false := by simp [hsome]
    rw [if_neg hneg]
    refine ⟨rfl, rfl, ?_⟩
    unfold lookupInst
    rw [Option.map_eq_none', List.find?_eq_none]
    intro p hp
    have := (List.mem_filter.mp hp).2
    simp only [Bool.not_eq_eq_eq_not, Bool.not_true, beq_eq_false_iff_ne] at this
    simp [this]

/-- Witness for C10: removing the registered `acme` with a failing
teardown still succeeds and deregisters; removing an unknown name fails
and changes nothing. -/
theorem remove_instance_spec_witness :
    ((removeInstance "acme" false cCfg1
        { composeFileExists := true, teardownOk := false, rmDirOk := true }).success = true ∧
     lookupInst (removeInstance "acme" false cCfg1
        { composeFileExists := true, teardownOk := false, rmDirOk := true }).cfg "acme" =
       none) ∧
    ((removeInstance "ghost" false cCfg1
        { composeFileExists := true, teardownOk := true, rmDirOk := true }).success = false ∧
     (removeInstance "ghost" false cCfg1
        { composeFileExists := true, teardownOk := true, rmDirOk := true }).cfg = cCfg1) :=
  ⟨⟨((remove_instance_spec "acme" false cCfg1
        { composeFileExists := true, teardownOk := false, rmDirOk := true }).2 (by decide)).1,
    ((remove_instance_spec "acme" false cCfg1
        { composeFileExists := true, teardownOk := false, rmDirOk := true }).2 (by decide)).2.2⟩,
   ⟨((remove_instance_spec "ghost" false cCfg1
        { composeFileExists := true, teardownOk := true, rmDirOk := true }).1 (by decide)).1,
    ((remove_instance_spec "ghost" false cCfg1
        { composeFileExists := true, teardownOk := true, rmDirOk := true }).1 (by decide)).2.2⟩⟩

/-! ## C5 — when the auth gate is open -/

/-- Sample token record and one-token store. -/
def cTok1 : TokenRecord :=
  { id := "tok_a1", token_hash := "h1", label := "Admin", role := "admin",
    created_at := "2026-01-01T00:00:00Z", last_used_at := none }

/-- Sample store holding a single admin token. -/
def cStore1 : TokenStore := ⟨[cTok1]⟩

/-- The claim's statement: a request carrying no credential is admitted
exactly when the token store is empty and no bootstrap credential is
configured. -/
def C5ClaimStatement : Prop :=
  ∀ (hash : String → String) (envToken : Option String) (store : TokenStore) (now : String),
    (authMiddleware hash envToken none store now).1 = AuthOutcome.next none ↔
      (store.tokens = [] ∧ envToken.getD "" = "")

/-- C5 counterexample: with no bootstrap credential configured but a
non-empty token store, a request with no credential at all is admitted —
the middleware consults only the bootstrap environment variable, never
the store, for the open-mode decision, refuting the claimed
biconditional. -/
theorem auth_open_mode_counterexample : ¬ C5ClaimStatement := by
  intro hcl
  have h := (hcl (fun s => s) none cStore1 "t").mp rfl
  have : cStore1.tokens ≠ [] := by decide
  exact this h.1

/-- C5 (amended): the auth gate admits requests without any credential
exactly when no bootstrap credential (`MCP_BEARER_TOKEN`) is configured,
regardless of the token store's contents; whenever a bootstrap
credential is configured, a request with a missing, malformed, or
unmatched bearer token is rejected with Unauthorized before the
protected operation runs. -/
theorem auth_gate_spec (hash : String → String) (envToken : Option String)
    (authHeader : Option String) (store : TokenStore) (now : String) :
    (envToken.getD "" = "" →
      authMiddleware hash envToken authHeader store now = (AuthOutcome.next none, store)) ∧
    (envToken.getD "" ≠ "" → authHeader = none →
      authMiddleware hash envToken authHeader store now =
        (AuthOutcome.unauthorized "Unauthorized — Bearer token required", store)) ∧
    (envToken.getD "" ≠ "" → ∀ a, authHeader = some a → strStartsWith a "Bearer " = false →
      authMiddleware hash envToken authHeader store now =
        (AuthOutcome.unauthorized "Unauthorized — Bearer token required", store)) ∧
    (envToken.getD "" ≠ "" → ∀ a, authHeader = some a → strStartsWith a "Bearer " = true →
      (∀ u ∈ store.tokens, u.token_hash ≠ hash (strDrop a 7)) →
      authMiddleware hash envToken authHeader store now =
        (AuthOutcome.unauthorized "Unauthorized — invalid token", store)) := by
  refine ⟨?_, ?_, ?_, ?_⟩
  · intro he
    unfold authMiddleware
    rw [if_pos he]
  · intro he hh
    unfold authMiddleware
    rw [if_neg he, hh]
  · intro he a hh hbear
    unfold authMiddleware
    rw [if_neg he, hh]
    simp [hbear]
  · intro he a hh hbear hmiss
    have hv : verifyToken hash (some (strDrop a 7)) store now = (none, store) := by
      by_cases hz : strDrop a 7 = ""
      · simp [verifyToken, hz]
      · have hfind : store.tokens.find? (fun t => t.token_hash == hash (strDrop a 7)) =
            none := by
          rw [List.find?_eq_none]
          intro u hu
          simp only [beq_iff_eq]
          exact hmiss u hu
        simp [verifyToken, hz, hfind]
    unfold authMiddleware
    rw [if_neg he, hh]
    simp [hbear, hv]

/-- Witness for C5 (amended): with a bootstrap credential configured and
a one-token store, a missing header and an unmatched bearer token are
both rejected; with no bootstrap credential the gate admits. -/
theorem auth_gate_spec_witness :
    (authMiddleware (fun _ => "hx") (some "boot") none cStore1 "t" =
      (AuthOutcome.unauthorized "Unauthorized — Bearer token required", cStore1)) ∧
    (authMiddleware (fun _ => "hx") (some "boot") (some "Bearer zzz") cStore1 "t" =
      (AuthOutcome.unauthorized "Unauthorized — invalid token", cStore1)) ∧
    (authMiddleware (fun _ => "hx") none none cStore1 "t" =
      (AuthOutcome.next none, cStore1)) :=
  ⟨(auth_gate_spec (fun _ => "hx") (some "boot") none cStore1 "t").2.1 (by decide) rfl,
   (auth_gate_spec (fun _ => "hx") (some "boot") (some "Bearer zzz") cStore1 "t").2.2.2
     (by decide) "Bearer zzz" rfl (by decide) (by decide),
   (auth_gate_spec (fun _ => "hx") none none cStore1 "t").1 (by decide)⟩

/-! ## C9 — what the success record lists as restarted -/

/-- C9 counterexample: a successful build scoped to the name `ghost`,
absent from an empty registry, restarts nothing (the lone target is
skipped as not-found), yet the appended `success:true` BuildRecord lists
`ghost` in `instances_restarted` — the record carries a name that was
absent from the registry when the restart set was processed. -/
theorem rebuild_ghost_target_counterexample :
    lookupInst cCfg0 "ghost" = none ∧
    (rebuildInstances cCfg0 [] [("latest", "old")] (some "ghost") false (some "tester")
        cEnvOk).history.map (fun r => r.instances_restarted) = [["ghost"]] ∧
    (rebuildInstances cCfg0 [] [("latest", "old")] (some "ghost") false (some "tester")
        cEnvOk).restarts = [("ghost", RestartOutcome.notFound)] :=
  ⟨rfl, rfl, rfl⟩

/-- C9 (amended): the `success:true` BuildRecord's `instances_restarted`
field equals the targeted list — the single named instance if a name was
given, otherwise every registered name — which is also exactly the list
of names the restart stage iterated over; a targeted name absent from
the registry is skipped with a per-target not-found result yet still
appears in the record, and a failed restart does not remove its name
either. -/
theorem rebuild_records_targets (cfg : DeploymentConfig) (hist : List BuildRecord)
    (imgs : List (String × String)) (name : Option String) (trig : Option String)
    (env : BuildEnv) (h : env.buildOk = true) :
    ∃ r, (rebuildInstances cfg hist imgs name false trig env).history = r :: hist ∧
      r.success = true ∧
      r.instances_restarted =
        (match name with | some n => [n] | none => cfg.instances.map (·.1)) ∧
      (rebuildInstances cfg hist imgs name false trig env).restarts.map (·.1) =
        r.instances_restarted := by
  unfold rebuildInstances
  rw [if_neg (by simp [h])]
  refine ⟨_, rfl, rfl, rfl, ?_⟩
  simp [List.map_map, Function.comp_def]

/-- Witness for C9 (amended): the record/target correspondence at a
concrete successful build over the one-instance registry. -/
theorem rebuild_records_targets_witness :
    ∃ r, (rebuildInstances cCfg1 [] cImgs1 none false (some "tester") cEnvOk).history =
        r :: [] ∧
      r.success = true ∧
      r.instances_restarted =
        (match (none : Option String) with
         | some n => [n]
         | none => cCfg1.instances.map (·.1)) ∧
      (rebuildInstances cCfg1 [] cImgs1 none false (some "tester") cEnvOk).restarts.map
          (·.1) = r.instances_restarted :=
  rebuild_records_targets cCfg1 [] cImgs1 none (some "tester") cEnvOk rfl

/-! ## C6 — the store never goes from non-empty to empty -/

theorem findTokenIdx_isSome (l : List TokenRecord) (id : String)
    (h : ∃ t ∈ l, t.id = id) : ∃ j, findTokenIdx l id = some j := by
  induction l with
  | nil =>
    obtain ⟨t, ht, _⟩ := h
    exact absurd ht (List.not_mem_nil t)
  | cons a l ih =>
    by_cases ha : a.id = id
    · exact ⟨0, by simp [findTokenIdx, ha]⟩
    · obtain ⟨t, ht, hid⟩ := h
      rcases List.mem_cons.mp ht with rfl | htl
      · exact absurd hid ha
      · obtain ⟨j, hj⟩ := ih ⟨t, htl, hid⟩
        exact ⟨j + 1, by simp [findTokenIdx, ha, hj]⟩

theorem eraseIdx_hash_free (id h : String) :
    ∀ (l : List TokenRecord) (j : Nat),
      findTokenIdx l id = some j →
      (∀ u ∈ l, u.token_hash = h → u.id = id) →
      l.Pairwise (fun a b => a.id ≠ b.id) →
      ∀ u ∈ l.eraseIdx j, u.token_hash ≠ h := by
  intro l
  induction l with
  | nil =>
    intro j hj
    exact absurd hj (by simp [findTokenIdx])
  | cons a l ih =>
    intro j hj hhash hpw u hu
    by_cases ha : a.id = id
    · have hj0 : j = 0 := by
        simp only [findTokenIdx, if_pos ha, Option.some.injEq] at hj
        omega
      subst hj0
      simp only [List.eraseIdx] at hu
      intro huh
      have huid : u.id = id := hhash u (List.mem_cons_of_mem a hu) huh
      have hne := (List.pairwise_cons.mp hpw).1 u hu
      exact hne (by rw [ha, huid])
    · simp only [findTokenIdx, if_neg ha, Option.map_eq_some'] at hj
      obtain ⟨j', hj', rfl⟩ := hj
      simp only [List.eraseIdx] at hu
      rcases List.mem_cons.mp hu with rfl | hul
      · intro huh
        exact ha (hhash u (List.mem_cons_self u l) huh)
      · exact ih j' hj' (fun v hv => hhash v (List.mem_cons_of_mem a hv))
          (List.pairwise_cons.mp hpw).2 u hul

/-- C6: deleting the last remaining token is refused with the store
unchanged; deleting a token when at least two exist succeeds and the
deleted token no longer authenticates (tokens carry pairwise-distinct
ids and the deleted token is the sole holder of its hash); neither
deletion nor creation ever takes the store from non-empty to empty. -/
theorem token_delete_invariants :
    (∀ (store : TokenStore) (id : String), (∃ t ∈ store.tokens, t.id = id) →
      store.tokens.length = 1 →
      deleteTokenRoute store id = ⟨400, store⟩) ∧
    (∀ (store : TokenStore) (id : String) (hash : String → String) (raw now : String),
      2 ≤ store.tokens.length →
      (∃ t ∈ store.tokens, t.id = id) →
      (∀ u ∈ store.tokens, u.token_hash = hash raw → u.id = id) →
      store.tokens.Pairwise (fun a b => a.id ≠ b.id) →
      (deleteTokenRoute store id).status = 200 ∧
      (verifyToken hash (some raw) (deleteTokenRoute store id).store now).1 = none) ∧
    (∀ (store : TokenStore) (id : String), store.tokens ≠ [] →
      (deleteTokenRoute store id).store.tokens ≠ []) ∧
    (∀ (store : TokenStore) (label role : String) (hash : String → String)
        (rawToken tokId now : String), store.tokens ≠ [] →
      (createTokenRoute store label role hash rawToken tokId now).store.tokens ≠ []) := by
  refine ⟨?_, ?_, ?_, ?_⟩
  · intro store id hmem hlen
    obtain ⟨j, hj⟩ := findTokenIdx_isSome store.tokens id hmem
    unfold deleteTokenRoute
    rw [hj]
    simp [hlen]
  · intro store id hash raw now hlen hmem hhash hpw
    obtain ⟨j, hj⟩ := findTokenIdx_isSome store.tokens id hmem
    have hlen1 : ¬ store.tokens.length = 1 := by omega
    unfold deleteTokenRoute
    rw [hj]
    dsimp only
    rw [if_neg hlen1]
    refine ⟨rfl, ?_⟩
    by_cases hz : raw = ""
    · simp [verifyToken, hz]
    · have hfind : (store.tokens.eraseIdx j).find?
          (fun t => t.token_hash == hash raw) = none := by
        rw [List.find?_eq_none]
        intro u hu
        simp only [beq_iff_eq]
        exact eraseIdx_hash_free id (hash raw) store.tokens j hj hhash hpw u hu
      simp [verifyToken, hz, hfind]
  · intro store id hne
    unfold deleteTokenRoute
    cases hj : findTokenIdx store.tokens id with
    | none => exact hne
    | some j =>
      dsimp only
      by_cases hlen : store.tokens.length = 1
      · rw [if_pos hlen]; exact hne
      · rw [if_neg hlen]
        have hpos : 0 < store.tokens.length := List.length_pos.mpr hne
        have : 0 < (store.tokens.eraseIdx j).length := by
          rw [List.length_eraseIdx]
          split <;> omega
        exact List.length_pos.mp this
  · intro store label role hash rawToken tokId now hne
    unfold createTokenRoute
    split
    · exact hne
    · split
      · exact hne
      · simp

/-- Second sample token and a two-token store. -/
def cTokB : TokenRecord :=
  { id := "tok_b2", token_hash := "hb", label := "Deployer", role := "deployer",
    created_at := "2026-01-02T00:00:00Z", last_used_at := none }

/-- Sample store holding two tokens with distinct ids and hashes. -/
def cStore2 : TokenStore := ⟨[cTok1, cTokB]⟩

/-- Witness for C6: deleting from the two-token store succeeds and the
deleted credential stops authenticating; deleting from the one-token
store is refused unchanged. -/
theorem token_delete_invariants_witness :
    ((deleteTokenRoute cStore2 "tok_a1").status = 200 ∧
     (verifyToken (fun s => if s = "raw1" then "h1" else "h?") (some "raw1")
        (deleteTokenRoute cStore2 "tok_a1").store "t").1 = none) ∧
    deleteTokenRoute cStore1 "tok_a1" = ⟨400, cStore1⟩ :=
  ⟨token_delete_invariants.2.1 cStore2 "tok_a1"
      (fun s => if s = "raw1" then "h1" else "h?") "raw1" "t"
      (by decide) (by decide) (by decide)
      (by simp [cStore2, List.pairwise_cons]; decide),
   token_delete_invariants.1 cStore1 "tok_a1" (by decide) (by decide)⟩

/-! ## C4 — retention is idempotent -/

theorem cleanup_removed_eq (builds : List BuildRecord) (now : Int) (allTags : List String)
    (rmOk : String → Bool) :
    (cleanupBuildImages builds now allTags rmOk).removed =
      allTags.filter
        (fun t => !(t == "<none>") && !(decide (t ∈ keepTags builds now)) && rmOk t) := rfl

theorem cleanup_kept_eq (builds : List BuildRecord) (now : Int) (allTags : List String)
    (rmOk : String → Bool) :
    (cleanupBuildImages builds now allTags rmOk).kept =
      (keepTags builds now).filter (fun t => decide (t ∈ allTags)) := rfl

theorem cleanup_remaining_eq (builds : List BuildRecord) (now : Int) (allTags : List String)
    (rmOk : String → Bool) :
    (cleanupBuildImages builds now allTags rmOk).remainingTags =
      allTags.filter
        (fun t => !(decide (t ∈ (cleanupBuildImages builds now allTags rmOk).removed))) := rfl

/-- C4: with the build history and the clock unchanged, running the
retention sweep again right after a sweep removes nothing — the second
run's removed list is empty — and its kept list equals the first run's. -/
theorem cleanup_idempotent (builds : List BuildRecord) (now : Int) (allTags : List String)
    (rmOk : String → Bool) :
    (cleanupBuildImages builds now
        (cleanupBuildImages builds now allTags rmOk).remainingTags rmOk).removed = [] ∧
    (cleanupBuildImages builds now
        (cleanupBuildImages builds now allTags rmOk).remainingTags rmOk).kept =
      (cleanupBuildImages builds now allTags rmOk).kept := by
  constructor
  · rw [cleanup_removed_eq, List.filter_eq_nil_iff]
    intro a ha hP
    rw [cleanup_remaining_eq, List.mem_filter] at ha
    obtain ⟨haTags, haNR⟩ := ha
    simp only [Bool.not_eq_eq_eq_not, Bool.not_true, decide_eq_false_iff_not] at haNR
    exact haNR (by rw [cleanup_removed_eq, List.mem_filter]; exact ⟨haTags, hP⟩)
  · rw [cleanup_kept_eq, cleanup_kept_eq]
    apply List.filter_congr
    intro t ht
    rw [decide_eq_decide, cleanup_remaining_eq, List.mem_filter]
    constructor
    · exact fun h => h.1
    · intro h
      refine ⟨h, ?_⟩
      simp only [Bool.not_eq_eq_eq_not, Bool.not_true, decide_eq_false_iff_not]
      intro habs
      rw [cleanup_removed_eq, List.mem_filter] at habs
      have hP := habs.2
      simp only [Bool.and_eq_true, Bool.not_eq_eq_eq_not, Bool.not_true,
        decide_eq_false_iff_not] at hP
      tauto

/-! ## C3 — the retention keep set -/

theorem mem_addTag (s : List String) (t u : String) :
    t ∈ addTag s u ↔ t ∈ s ∨ t = u := by
  unfold addTag
  by_cases hu : u ∈ s
  · rw [if_pos hu]
    constructor
    · exact Or.inl
    · rintro (h | rfl)
      · exact h
      · exact hu
  · rw [if_neg hu]
    simp

theorem mem_addTagOpt (s : List String) (t : String) (o : Option String) :
    t ∈ addTagOpt s o ↔ t ∈ s ∨ o = some t := by
  cases o with
  | none => simp [addTagOpt]
  | some u => simp [addTagOpt, mem_addTag, eq_comm]

theorem mem_foldl_addTag (l : List BuildRecord) (s0 : List String) (t : String) :
    t ∈ l.foldl (fun s b => addTag s b.tag) s0 ↔ t ∈ s0 ∨ ∃ b ∈ l, b.tag = t := by
  induction l generalizing s0 with
  | nil => simp
  | cons a l ih =>
    rw [List.foldl_cons, ih, mem_addTag]
    constructor
    · rintro ((h | rfl) | ⟨b, hb, hbt⟩)
      · exact Or.inl h
      · exact Or.inr ⟨a, List.mem_cons_self a l, rfl⟩
      · exact Or.inr ⟨b, List.mem_cons_of_mem a hb, hbt⟩
    · rintro (h | ⟨b, hb, hbt⟩)
      · exact Or.inl (Or.inl h)
      · rcases List.mem_cons.mp hb with rfl | hbl
        · exact Or.inl (Or.inr hbt.symm)
        · exact Or.inr ⟨b, hbl, hbt⟩

theorem mem_foldl_addTagOpt (l : List Nat) (g : Nat → Option String) (s0 : List String)
    (t : String) :
    t ∈ l.foldl (fun s w => addTagOpt s (g w)) s0 ↔ t ∈ s0 ∨ ∃ w ∈ l, g w = some t := by
  induction l generalizing s0 with
  | nil => simp
  | cons a l ih =>
    rw [List.foldl_cons, ih, mem_addTagOpt]
    constructor
    · rintro ((h | h) | ⟨w, hw, hwt⟩)
      · exact Or.inl h
      · exact Or.inr ⟨a, List.mem_cons_self a l, h⟩
      · exact Or.inr ⟨w, List.mem_cons_of_mem a hw, hwt⟩
    · rintro (h | ⟨w, hw, hwt⟩)
      · exact Or.inl (Or.inl h)
      · rcases List.mem_cons.mp hw with rfl | hwl
        · exact Or.inl (Or.inr hwt)
        · exact Or.inr ⟨w, hwl, hwt⟩

theorem mem_keepTags (builds : List BuildRecord) (now : Int) (t : String) :
    t ∈ keepTags builds now ↔
      t = "latest" ∨ t = "rollback" ∨ t = "pre-rollback" ∨
      (∃ b ∈ (successfulBuilds builds).take 3, b.tag = t) ∨
      (∃ w ∈ List.range 4,
        (weekWindowRep (successfulBuilds builds) now w).map (·.tag) = some t) ∨
      (∃ m ∈ List.range 3,
        (monthWindowRep (successfulBuilds builds) now m).map (·.tag) = some t) := by
  unfold keepTags
  rw [mem_foldl_addTagOpt, mem_foldl_addTagOpt, mem_foldl_addTag]
  simp only [List.mem_cons, List.not_mem_nil, or_false, or_assoc]

/-- Concrete build history refuting the calendar reading of retention:
three builds within the last few hours of `cNow` (2026-03-31T12:00Z) and
two old builds on 2026-01-30 and 2026-01-31, which fall into the second
and third rolling 30-day windows respectively while sharing the calendar
month January 2026. -/
def cB1 : BuildRecord :=
  { id := "b1", tag := "t1", timestamp_ms := 1774954800000, git_commit := "c1",
    git_message := "m1", image_id := some "i1", success := true, error := none,
    duration_ms := 1, triggered_by := "api", instances_restarted := ["acme"] }

/-- Second recent build of the counterexample history. -/
def cB2 : BuildRecord := { cB1 with id := "b2", tag := "t2", timestamp_ms := 1774951200000 }

/-- Third recent build of the counterexample history. -/
def cB3 : BuildRecord := { cB1 with id := "b3", tag := "t3", timestamp_ms := 1774947600000 }

/-- Build of 2026-01-31T00:00Z, representative of the second rolling
30-day window. -/
def cBX : BuildRecord := { cB1 with id := "bX", tag := "tX", timestamp_ms := 1769817600000 }

/-- Build of 2026-01-30T00:00Z, representative of the third rolling
30-day window, in the same calendar month as `cBX`. -/
def cBY : BuildRecord := { cB1 with id := "bY", tag := "tY", timestamp_ms := 1769731200000 }

/-- The counterexample history, newest first. -/
def cBuilds : List BuildRecord := [cB1, cB2, cB3, cBX, cBY]

/-- The counterexample sweep instant: 2026-03-31T12:00:00Z. -/
def cNow : Int := 1774958400000

/-- The counterexample runtime tag list. -/
def cAllTags : List String := ["latest", "t1", "t2", "t3", "tX", "tY"]

/-- C3 counterexample: at the concrete history `cBuilds` and sweep time
`cNow`, the sweep keeps both `tX` and `tY` — two successful build tags
roughly 60 days old (outside every reading of "the preceding four
calendar weeks") lying in the same calendar month — so the keep set
cannot have the claimed shape, which allows at most one kept tag per
calendar month beyond the sentinels and the three most recent builds:
the code buckets by rolling 7-day and 30-day windows from the sweep
instant, not by calendar weeks and months. -/
theorem cleanup_calendar_claim_refuted :
    ¬ KeepSetPerClaim cBuilds cNow
      (cleanupBuildImages cBuilds cNow cAllTags (fun _ => true)).kept := by
  intro hcl
  obtain ⟨W, M, hW, hM, hpair, hcov⟩ := hcl
  have hpin : ∀ b ∈ successfulBuilds cBuilds,
      (b.tag = "tX" → b = cBX) ∧ (b.tag = "tY" → b = cBY) := by decide
  have hmemX : cBX ∈ M := by
    rcases hcov "tX" (by decide) with hs | h3 | hW' | hM'
    · exact absurd hs (by decide)
    · exact absurd h3 (by decide)
    · rw [List.mem_map] at hW'
      obtain ⟨b, hbW, hbt⟩ := hW'
      obtain ⟨hbS, hbts⟩ := hW b hbW
      rw [(hpin b hbS).1 hbt] at hbts
      exact absurd hbts (by decide)
    · rw [List.mem_map] at hM'
      obtain ⟨b, hbM, hbt⟩ := hM'
      rw [(hpin b (hM b hbM)).1 hbt] at hbM
      exact hbM
  have hmemY : cBY ∈ M := by
    rcases hcov "tY" (by decide) with hs | h3 | hW' | hM'
    · exact absurd hs (by decide)
    · exact absurd h3 (by decide)
    · rw [List.mem_map] at hW'
      obtain ⟨b, hbW, hbt⟩ := hW'
      obtain ⟨hbS, hbts⟩ := hW b hbW
      rw [(hpin b hbS).2 hbt] at hbts
      exact absurd hbts (by decide)
    · rw [List.mem_map] at hM'
      obtain ⟨b, hbM, hbt⟩ := hM'
      rw [(hpin b (hM b hbM)).2 hbt] at hbM
      exact hbM
  have hne : cBX ≠ cBY := by decide
  have hR : Symmetric (fun b₁ b₂ : BuildRecord =>
      civilMonthIndex b₁.timestamp_ms ≠ civilMonthIndex b₂.timestamp_ms) :=
    fun x y hxy => hxy.symm
  exact (List.Pairwise.forall hR hpair) hmemX hmemY hne (by decide)

/-- C3 (amended): the retention keep set is exactly: the three sentinel
tags (`latest`, `rollback`, `pre-rollback`), the tags of the three most
recent successful non-rollback builds, the tag of the newest successful
build in each of the four rolling 7-day windows ending at the sweep
instant, and the tag of the newest successful build in each of the three
rolling 30-day windows ending at the sweep instant — rolling windows
anchored at the sweep time, not calendar weeks or months; every runtime
tag outside this set (other than the `<none>` placeholder) is removed,
each removal best-effort. -/
theorem cleanup_keep_set_spec (builds : List BuildRecord) (now : Int) (allTags : List String)
    (rmOk : String → Bool) :
    (∀ t, t ∈ (cleanupBuildImages builds now allTags rmOk).kept ↔
      (t ∈ allTags ∧
        (t = "latest" ∨ t = "rollback" ∨ t = "pre-rollback" ∨
         (∃ b ∈ (successfulBuilds builds).take 3, b.tag = t) ∨
         (∃ w ∈ List.range 4,
           (weekWindowRep (successfulBuilds builds) now w).map (·.tag) = some t) ∨
         (∃ m ∈ List.range 3,
           (monthWindowRep (successfulBuilds builds) now m).map (·.tag) = some t)))) ∧
    (cleanupBuildImages builds now allTags rmOk).removed =
      allTags.filter
        (fun t => !(t == "<none>") && !(decide (t ∈ keepTags builds now)) && rmOk t) := by
  refine ⟨?_, rfl⟩
  intro t
  rw [cleanup_kept_eq, List.mem_filter, mem_keepTags]
  simp only [decide_eq_true_eq]
  exact and_comm

end ServerManager
